import Mathlib

/-!
# Verification of the NETAI LLM-integration chatbot core

Shallow embedding, in Lean 4, of the telemetry-diagnostics and conversation
context engine of the `netai_chatbot` Python package, together with proofs
settling the frozen claims about it.

Embedding conventions:
* Python `float` values are modelled as exact rationals (`ℚ`); every numeric
  literal appearing in the sources (`1.0`, `0.5`, `20`, …) is exactly
  representable, so threshold comparisons are preserved.  Python float
  *truthiness* (`None`, `0.0` falsy) is modelled explicitly where the source
  relies on it.
* `datetime` timestamps and free-form `metadata` dictionaries are elided from
  the record types: no claim refers to them and no control flow depends on
  them.
* Python dictionaries keyed by strings are modelled as association lists with
  lookup-by-first-match (`find?`), which coincides with dict lookup on the
  reachable states (keys are unique; a prepended entry models overwrite).
* String formatting used only for display (`f"..."`, `round(x, 2)` inside
  human-readable `description` strings) is elided; every field an analysed
  claim depends on is kept exactly.
-/

namespace NetAI

/-! ## Conversation store (`netai_chatbot/context/manager.py`)

`Message` carries `role`/`content` (timestamp and metadata elided, see header).
`Message.to_dict` projects exactly these two fields, so the dict form sent to
the LLM API and the stored form coincide in the model. -/

structure Message where
  role : String
  content : String
deriving Repr, DecidableEq

/-- Embedding of `Conversation` from `manager.py` (`created_at`/`network_context` elided:
no claim mentions them). The generated-uuid default for `id` is made explicit
at each creation site. -/
structure Conversation where
  id : String
  messages : List Message
deriving Repr, DecidableEq

/-- Embedding of `Conversation.add_message` (metadata elided). -/
def add_message (c : Conversation) (role content : String) : Conversation :=
  { c with messages := c.messages ++ [{ role := role, content := content }] }

/-- Embedding of `Conversation.get_history`: `msgs[-max_messages:]` when `max_messages` is
truthy (Python: `if max_messages:` — both `None` and `0` skip the slice). -/
def get_history (c : Conversation) (max_messages : Option Nat) : List Message :=
  match max_messages with
  | none => c.messages
  | some k => if k = 0 then c.messages else c.messages.drop (c.messages.length - k)

/-- The `ContextManager._conversations` dict: association list keyed by
conversation id; lookup is first match, insertion is prepend (which shadows,
i.e. models dict overwrite for lookup purposes). -/
abbrev Store := List (String × Conversation)

/-- Embedding of `ContextManager.get_conversation`: `self._conversations.get(id)`. -/
def get_conversation (store : Store) (conversation_id : String) : Option Conversation :=
  (List.find? (fun e => decide (e.1 = conversation_id)) store).map (fun e => e.2)

/-- Write back the (mutated) `Conversation` object stored under a key, the
state-passing rendering of Python in-place mutation of the shared object. -/
def set_conversation (store : Store) (conversation_id : String) (conv : Conversation) : Store :=
  List.map (fun e => if e.1 = conversation_id then (e.1, conv) else e) store

/-- Embedding of `ContextManager.record_assistant_response`: look up the conversation;
if present, append the assistant turn and trim the oldest
`message_count - max_conversation_history` messages when the count exceeds
`max_conversation_history`; if absent, do nothing. -/
def record_assistant_response (store : Store) (max_conversation_history : Nat)
    (conversation_id content : String) : Store :=
  match get_conversation store conversation_id with
  | none => store
  | some conv =>
    let conv2 := add_message conv "assistant" content
    let conv3 :=
      if max_conversation_history < conv2.messages.length then
        { conv2 with
          messages := conv2.messages.drop (conv2.messages.length - max_conversation_history) }
      else conv2
    set_conversation store conversation_id conv3

end NetAI

namespace NetAI

/-! ## Prompt engine (`netai_chatbot/llm/prompt_engine.py`)

The four system-prompt constants are long natural-language strings; their
content is opaque to every analysed claim (only message roles, ordering and
the verbatim user text matter), so each is abbreviated to its distinctive
opening line. -/

def NETWORK_DIAGNOSTICS_SYSTEM_PROMPT : String :=
  "You are NETAI, an expert AI assistant for network diagnostics and operations on the National Research Platform (NRP)."

def TELEMETRY_ANALYSIS_SYSTEM_PROMPT : String :=
  "You are analyzing network telemetry data from the National Research Platform."

def ANOMALY_EXPLANATION_SYSTEM_PROMPT : String :=
  "You are explaining a detected network anomaly to a network operator."

def REMEDIATION_SYSTEM_PROMPT : String :=
  "You are providing network remediation strategies for the National Research Platform."

/-- Embedding of `PromptTemplate` (the `description` field is display-only and elided;
`user_template` content is opaque to the claims and retained as present/absent). -/
structure PromptTemplate where
  name : String
  system_prompt : String
  user_template : Option String := none
deriving Repr, DecidableEq

/-- The `TEMPLATES` dict, as an association list in source order. -/
def TEMPLATES : List (String × PromptTemplate) :=
  [("general_diagnostics",
    { name := "General Network Diagnostics",
      system_prompt := NETWORK_DIAGNOSTICS_SYSTEM_PROMPT }),
   ("telemetry_analysis",
    { name := "Telemetry Analysis",
      system_prompt := TELEMETRY_ANALYSIS_SYSTEM_PROMPT,
      user_template := some "Analyze the following network telemetry data: {telemetry_data}" }),
   ("anomaly_explanation",
    { name := "Anomaly Explanation",
      system_prompt := ANOMALY_EXPLANATION_SYSTEM_PROMPT,
      user_template := some "An anomaly has been detected: {anomaly_type} {severity} {affected_path} {metrics}" }),
   ("remediation",
    { name := "Remediation Strategy",
      system_prompt := REMEDIATION_SYSTEM_PROMPT,
      user_template := some "Provide remediation strategies for the following network issue: {issue_description} {affected_systems} {impact}" })]

/-- Embedding of `PromptEngine.get_system_prompt`: dict lookup with the general prompt as
fallback for unknown template names. -/
def get_system_prompt (template_name : String) : String :=
  match (List.find? (fun e => decide (e.1 = template_name)) TEMPLATES).map (fun e => e.2) with
  | none => NETWORK_DIAGNOSTICS_SYSTEM_PROMPT
  | some t => t.system_prompt

/-- Embedding of `PromptEngine.build_messages`: system message (with the telemetry block
appended when `telemetry_context` is truthy — Python `if telemetry_context:`
treats `None` and `""` as absent), then the conversation history when
non-empty, then the current user message. -/
def build_messages (user_message : String) (conversation_history : List Message)
    (template_name : String) (telemetry_context : Option String) : List Message :=
  let system_prompt := get_system_prompt template_name
  let system_prompt :=
    match telemetry_context with
    | some t =>
        if t = "" then system_prompt
        else system_prompt ++ "\n\n---\n**Current Network Telemetry Context**:\n" ++ t
    | none => system_prompt
  let messages : List Message := [{ role := "system", content := system_prompt }]
  let messages :=
    if conversation_history.isEmpty then messages else messages ++ conversation_history
  messages ++ [{ role := "user", content := user_message }]

/-- Python `needle in haystack` on lists of characters: `is_pre kw l` is
"`kw` is an initial segment of `l`". -/
def is_pre : List Char → List Char → Bool
  | [], _ => true
  | _ :: _, [] => false
  | a :: as, b :: bs => a = b && is_pre as bs

/-- Python substring containment `kw in s` over the character list of `s`. -/
def contains_sub : List Char → List Char → Bool
  | [], kw => kw.isEmpty
  | h :: t, kw => is_pre kw (h :: t) || contains_sub t kw

/-- Embedding of `user_message.lower()` (character-wise; the analysed keywords are ASCII,
where Python `str.lower` and `Char.toLower` agree). -/
def lower_chars (s : String) : List Char := s.data.map Char.toLower

/-- Embedding of `kw in message_lower` for one keyword. -/
def contains_kw (message_lower : List Char) (kw : String) : Bool :=
  contains_sub message_lower kw.data

/-- Embedding of `PromptEngine.classify_query`: first-match keyword classification in
source order (anomaly → remediation → telemetry → general default). -/
def classify_query (user_message : String) : String :=
  let message_lower := lower_chars user_message
  if ["anomaly", "unusual", "strange", "weird", "spike"].any (contains_kw message_lower) then
    "anomaly_explanation"
  else if ["fix", "remediat", "resolve", "repair", "action"].any (contains_kw message_lower) then
    "remediation"
  else if ["telemetry", "metric", "measurement", "perfsonar", "data"].any
      (contains_kw message_lower) then
    "telemetry_analysis"
  else "general_diagnostics"

/-- The ordered rule list of §4.4 of the spec, as data: keyword set → template
key, evaluated top to bottom with `general_diagnostics` as default.  Written
from the words of the spec, to be compared with `classify_query`. -/
def classifier_rules : List (List String × String) :=
  [(["anomaly", "unusual", "strange", "weird", "spike"], "anomaly_explanation"),
   (["fix", "remediat", "resolve", "repair", "action"], "remediation"),
   (["telemetry", "metric", "measurement", "perfsonar", "data"], "telemetry_analysis")]

/-- First-match evaluation of `classifier_rules` (spec wording of §4.4). -/
def classify_spec (user_message : String) : String :=
  let message_lower := lower_chars user_message
  match List.find? (fun r => r.1.any (contains_kw message_lower)) classifier_rules with
  | some r => r.2
  | none => "general_diagnostics"

end NetAI

namespace NetAI

/-! ## Context composer (`ContextManager.build_llm_messages`)

The awaited telemetry fetch is modelled by the `telemetry_context` parameter
(`none` both when no context is produced and when the fetch raised — the
`try/except` makes a raise equivalent to no context).  The uuid generated by
the default factory of `Conversation()` is modelled by the `fresh_id` parameter. -/

structure ComposeResult where
  messages : List Message
  store : Store

/-- Embedding of `ContextManager.build_llm_messages`.  When the conversation id is not
found, `create_conversation()` stores a fresh `Conversation` in the dict
keyed by its generated id (`fresh_id`), and only afterwards is the attribute
`id` attribute overwritten with the requested id (`conv.id = conversation_id`)
— the dict key is not changed.  The history window is taken before the user
turn is appended. -/
def build_llm_messages (store : Store) (fresh_id : String) (context_window_size : Nat)
    (conversation_id user_message : String) (telemetry_context : Option String) :
    ComposeResult :=
  match get_conversation store conversation_id with
  | some conv =>
    let template_name := classify_query user_message
    let history := get_history conv (some context_window_size)
    let messages := build_messages user_message history template_name telemetry_context
    let conv2 := add_message conv "user" user_message
    { messages := messages, store := set_conversation store conversation_id conv2 }
  | none =>
    let conv : Conversation := { id := conversation_id, messages := [] }
    let template_name := classify_query user_message
    let history := get_history conv (some context_window_size)
    let messages := build_messages user_message history template_name telemetry_context
    let conv2 := add_message conv "user" user_message
    { messages := messages, store := (fresh_id, conv2) :: store }

end NetAI

namespace NetAI

/-! ## perfSONAR path health (`netai_chatbot/diagnostics/perfsonar.py`) -/

/-- Embedding of `NetworkPath` (`last_updated` elided).  Optional metrics are `Option ℚ`;
Python float truthiness (`None` and `0.0` falsy) is modelled explicitly in
`health_status`. -/
structure NetworkPath where
  source : String
  destination : String
  throughput_gbps : Option ℚ := none
  latency_ms : Option ℚ := none
  packet_loss_pct : Option ℚ := none
  jitter_ms : Option ℚ := none
  retransmits_pct : Option ℚ := none
  hop_count : Option ℤ := none
deriving Repr, DecidableEq

/-- Embedding of `NetworkPath.health_status`.  Each guard is literally
`self.field and self.field <op> bound`: the field must be truthy
(present *and* nonzero) before the comparison runs. -/
def health_status (p : NetworkPath) : String :=
  if p.packet_loss_pct.any (fun v => decide (v ≠ 0 ∧ 1 < v)) then "critical"
  else if p.packet_loss_pct.any (fun v => decide (v ≠ 0 ∧ (0.5 : ℚ) < v)) then "degraded"
  else if p.latency_ms.any (fun v => decide (v ≠ 0 ∧ 100 < v)) then "warning"
  else if p.throughput_gbps.any (fun v => decide (v ≠ 0 ∧ v < 1)) then "warning"
  else "healthy"

/-- The health rule as the claim states it: strict precedence where a missing
(null) field does not trigger its rule but a *present value of zero is
evaluated normally*.  Written from the words of the claim, to be compared with
`health_status`. -/
def claim_health_status (p : NetworkPath) : String :=
  if p.packet_loss_pct.any (fun v => decide (1 < v)) then "critical"
  else if p.packet_loss_pct.any (fun v => decide ((0.5 : ℚ) < v)) then "degraded"
  else if p.latency_ms.any (fun v => decide (100 < v)) ||
      p.throughput_gbps.any (fun v => decide (v < 1)) then "warning"
  else "healthy"

/-- The amended health rule: same precedence, but a present value of `0.0`
behaves like a missing value (it never triggers a rule).  For packet loss and
latency the thresholds are positive, so only the `throughput < 1.0` rule is
affected: it additionally requires a nonzero throughput. -/
def amended_health_status (p : NetworkPath) : String :=
  if p.packet_loss_pct.any (fun v => decide (1 < v)) then "critical"
  else if p.packet_loss_pct.any (fun v => decide ((0.5 : ℚ) < v)) then "degraded"
  else if p.latency_ms.any (fun v => decide (100 < v)) ||
      p.throughput_gbps.any (fun v => decide (v ≠ 0 ∧ v < 1)) then "warning"
  else "healthy"

end NetAI

namespace NetAI

/-! ## Traceroute analysis (`netai_chatbot/diagnostics/traceroute.py`) -/

/-- Embedding of `TracerouteHop` (display-only `hostname`, `asn`, `location` retained;
`rtt_ms` is optional and its Python-float truthiness matters below). -/
structure TracerouteHop where
  hop_number : ℤ
  ip_address : String
  hostname : Option String := none
  rtt_ms : Option ℚ := none
  asn : Option ℤ := none
  location : Option String := none
  is_responding : Bool := true
deriving Repr, DecidableEq

/-- Embedding of `TracerouteResult` (timestamp elided). -/
structure TracerouteResult where
  source : String
  destination : String
  hops : List TracerouteHop := []
  completed : Bool := true
deriving Repr, DecidableEq

/-- Embedding of `TracerouteResult.hop_count`. -/
def hop_count (r : TracerouteResult) : Nat := r.hops.length

/-- Embedding of `TracerouteResult.total_rtt_ms`:
`if self.hops and self.hops[-1].rtt_ms: return self.hops[-1].rtt_ms` —
the `rtt_ms` of the *last* hop, provided it is truthy (present and nonzero);
otherwise `None`. -/
def total_rtt_ms (r : TracerouteResult) : Option ℚ :=
  match r.hops.getLast? with
  | some h =>
    match h.rtt_ms with
    | some v => if v = 0 then none else some v
    | none => none
  | none => none

/-- The loop body of `TracerouteResult.problematic_hops`, with the running
predecessor (`prev = none` exactly when `i = 0`).  The guard
`i > 0 and hop.rtt_ms and self.hops[i-1].rtt_ms` requires both RTTs truthy
(present and nonzero) before the `delta > 20` test runs. -/
def problematic_hops_aux : Option TracerouteHop → List TracerouteHop → List TracerouteHop
  | _, [] => []
  | prev, hop :: rest =>
    let tail := problematic_hops_aux (some hop) rest
    if hop.is_responding = false then hop :: tail
    else
      match prev with
      | none => tail
      | some p =>
        match hop.rtt_ms, p.rtt_ms with
        | some a, some b =>
          if a ≠ 0 ∧ b ≠ 0 ∧ 20 < a - b then hop :: tail else tail
        | _, _ => tail

/-- Embedding of `TracerouteResult.problematic_hops`. -/
def problematic_hops (r : TracerouteResult) : List TracerouteHop :=
  problematic_hops_aux none r.hops

/-- Predicate: hop `h` is a responding hop whose RTT delta from its (present, nonzero
RTT) immediate predecessor `p` exceeds 20 ms". -/
def delta_bad (p h : TracerouteHop) : Prop :=
  ∃ a b, h.rtt_ms = some a ∧ p.rtt_ms = some b ∧ a ≠ 0 ∧ b ≠ 0 ∧ 20 < a - b

end NetAI

namespace NetAI

/-! ## Anomaly detection (`netai_chatbot/diagnostics/anomaly.py`) -/

inductive AnomalySeverity where
  | low
  | medium
  | high
  | critical
deriving Repr, DecidableEq

inductive AnomalyType where
  | throughput_drop
  | latency_spike
  | packet_loss
  | jitter_increase
  | path_change
  | link_flap
deriving Repr, DecidableEq

/-- Embedding of `PerfSONARMeasurement` (timestamp and metadata elided; `value` is the
measured scalar the detectors consume). -/
structure Measurement where
  test_type : String
  source : String
  destination : String
  value : ℚ
  unit : String
deriving Repr, DecidableEq

/-- Embedding of `Anomaly` (the human-readable `description` string and `detected_at`
timestamp are elided; the numeric fields are kept unrounded — `round(x, 2)`
in the source only affects display precision). -/
structure Anomaly where
  anomaly_type : AnomalyType
  severity : AnomalySeverity
  source : String
  destination : String
  current_value : ℚ
  baseline_value : ℚ
  threshold : ℚ
  unit : String
deriving Repr, DecidableEq

/-- The `DEFAULT_THRESHOLDS` dict (fixed string keys, so a record). -/
structure Thresholds where
  throughput_drop_pct : ℚ
  latency_spike_pct : ℚ
  packet_loss_pct : ℚ
  jitter_ms : ℚ
deriving Repr, DecidableEq

def DEFAULT_THRESHOLDS : Thresholds :=
  { throughput_drop_pct := 20, latency_spike_pct := 50, packet_loss_pct := 0.5, jitter_ms := 10 }

/-- Embedding of `statistics.mean`. -/
def list_mean (values : List ℚ) : ℚ := values.sum / (values.length : ℚ)

/-- Embedding of `statistics.stdev` squared: the sample variance `Σ (x - mean)² / (n - 1)`
(the detectors only compare against the standard deviation, and every such
comparison is restated below as an exact rational comparison against the
variance, avoiding the irrational square root). -/
def sample_variance (values : List ℚ) : ℚ :=
  let mean := list_mean values
  (values.map (fun v => (v - mean) ^ 2)).sum / ((values.length : ℚ) - 1)

/-- The test `z_score < -2` where `z_score = (v - mean)/stdev if stdev > 0 else 0`:
equivalently `stdev > 0` and `mean - v > 2·stdev`, i.e. `var > 0`,
`mean - v > 0` and `(mean - v)² > 4·var` — an exact rational restatement. -/
def z_below_neg_two (v mean var : ℚ) : Prop :=
  0 < var ∧ 0 < mean - v ∧ 4 * var < (mean - v) ^ 2

/-- The test `z_score > 2` with the same `stdev > 0` guard, restated rationally. -/
def z_above_two (v mean var : ℚ) : Prop :=
  0 < var ∧ 0 < v - mean ∧ 4 * var < (v - mean) ^ 2

instance (v mean var : ℚ) : Decidable (z_below_neg_two v mean var) := by
  unfold z_below_neg_two; infer_instance

instance (v mean var : ℚ) : Decidable (z_above_two v mean var) := by
  unfold z_above_two; infer_instance

/-- Embedding of `AnomalyDetector._classify_severity` with the three bucket bounds passed
positionally (`thresholds[0..2]`). -/
def classify_severity (deviation_pct t0 t1 t2 : ℚ) : AnomalySeverity :=
  if t2 ≤ deviation_pct then AnomalySeverity.critical
  else if t1 ≤ deviation_pct then AnomalySeverity.high
  else if t0 ≤ deviation_pct then AnomalySeverity.medium
  else AnomalySeverity.low

/-- Python `a or b` on strings (empty string falsy), as used for
`source or m.source`. -/
def str_or (a b : String) : String := if a = "" then b else a

/-- Embedding of `AnomalyDetector.detect_throughput_anomalies`. -/
def detect_throughput_anomalies (th : Thresholds) (measurements : List Measurement)
    (source destination : String) : List Anomaly :=
  if measurements.length < 5 then []
  else
    let values := measurements.map (fun m => m.value)
    let mean_val := list_mean values
    let var_val := if 1 < values.length then sample_variance values else 0
    let threshold_pct := th.throughput_drop_pct
    (measurements.drop (measurements.length - 10)).filterMap fun m =>
      let drop_pct := if 0 < mean_val then (mean_val - m.value) / mean_val * 100 else 0
      if threshold_pct < drop_pct ∨ z_below_neg_two m.value mean_val var_val then
        some
          { anomaly_type := AnomalyType.throughput_drop,
            severity := classify_severity drop_pct 20 40 60,
            source := str_or source m.source,
            destination := str_or destination m.destination,
            current_value := m.value,
            baseline_value := mean_val,
            threshold := mean_val * (1 - threshold_pct / 100),
            unit := "Gbps" }
      else none

/-- Embedding of `AnomalyDetector.detect_latency_anomalies`. -/
def detect_latency_anomalies (th : Thresholds) (measurements : List Measurement)
    (source destination : String) : List Anomaly :=
  if measurements.length < 5 then []
  else
    let values := measurements.map (fun m => m.value)
    let mean_val := list_mean values
    let var_val := if 1 < values.length then sample_variance values else 0
    let threshold_pct := th.latency_spike_pct
    (measurements.drop (measurements.length - 10)).filterMap fun m =>
      let spike_pct := if 0 < mean_val then (m.value - mean_val) / mean_val * 100 else 0
      if threshold_pct < spike_pct ∨ z_above_two m.value mean_val var_val then
        some
          { anomaly_type := AnomalyType.latency_spike,
            severity := classify_severity spike_pct 50 100 200,
            source := str_or source m.source,
            destination := str_or destination m.destination,
            current_value := m.value,
            baseline_value := mean_val,
            threshold := mean_val * (1 + threshold_pct / 100),
            unit := "ms" }
      else none

/-- The `severity_order` dict in `detect_all` (critical=0 … low=3). -/
def severity_order : AnomalySeverity → Nat
  | AnomalySeverity.critical => 0
  | AnomalySeverity.high => 1
  | AnomalySeverity.medium => 2
  | AnomalySeverity.low => 3

/-- The sort key order used by `anomalies.sort(key=lambda a: severity_order[a.severity])`. -/
def sev_le (a b : Anomaly) : Prop := severity_order a.severity ≤ severity_order b.severity

instance : DecidableRel sev_le := fun a b =>
  inferInstanceAs (Decidable (severity_order a.severity ≤ severity_order b.severity))

instance : IsTotal Anomaly sev_le := ⟨fun _ _ => Nat.le_total _ _⟩

instance : IsTrans Anomaly sev_le := ⟨fun _ _ _ => Nat.le_trans⟩

/-- Embedding of `AnomalyDetector.detect_all`: concatenate the outputs of both detectors and sort
by severity rank.  Python `list.sort` is a *stable* sort by key; a stable sort
is uniquely determined by the key order, so it is modelled by insertion sort
with the non-strict key order `sev_le` (whose stability is proved below). -/
def detect_all (th : Thresholds) (throughput_data latency_data : List Measurement)
    (source destination : String) : List Anomaly :=
  List.insertionSort sev_le
    (detect_throughput_anomalies th throughput_data source destination ++
      detect_latency_anomalies th latency_data source destination)

end NetAI

namespace NetAI

/-! ## Shared helper lemmas -/

/-- Unfolding `get_conversation` one association-list entry at a time. -/
theorem get_conversation_cons (k : String) (v : Conversation) (t : Store) (cid : String) :
    get_conversation ((k, v) :: t) cid = if k = cid then some v else get_conversation t cid := by
  unfold get_conversation
  by_cases hk : k = cid <;> simp [List.find?, hk]

/-- Looking up a key after writing a conversation back under it returns the
written conversation, provided the key was present. -/
theorem get_conversation_set (store : Store) (cid : String) (c' : Conversation)
    (h : (get_conversation store cid).isSome) :
    get_conversation (set_conversation store cid c') cid = some c' := by
  induction store with
  | nil => simp [get_conversation, List.find?] at h
  | cons e t ih =>
    obtain ⟨k, v⟩ := e
    by_cases hk : k = cid
    · subst hk
      simp [set_conversation, get_conversation_cons]
    · have h' : (get_conversation t cid).isSome := by
        rw [get_conversation_cons, if_neg hk] at h
        exact h
      have hset : set_conversation ((k, v) :: t) cid c' = (k, v) :: set_conversation t cid c' := by
        simp [set_conversation, hk]
      rw [hset, get_conversation_cons, if_neg hk]
      exact ih h'

/-- Windowing an empty history yields the empty history for any window size. -/
theorem get_history_nil (cid : String) (cws : Nat) :
    get_history { id := cid, messages := [] } (some cws) = [] := by
  unfold get_history
  split <;> simp

/-- Applying `build_messages` to an empty history yields exactly one system message
followed by the verbatim user message. -/
theorem build_messages_nil_history (user_message template_name : String)
    (telemetry_context : Option String) :
    ∃ sys_content,
      build_messages user_message [] template_name telemetry_context =
        [{ role := "system", content := sys_content },
         { role := "user", content := user_message }] := by
  unfold build_messages
  rcases telemetry_context with _ | t
  · exact ⟨_, rfl⟩
  · by_cases ht : t = "" <;> simp [ht]

end NetAI

namespace NetAI

/-! ## Claim C10 — unknown id makes `record_assistant_response` a silent no-op -/

/-- C10: for every conversation id not present in the store,
`record_assistant_response` returns the store unchanged: no error, no stored
message, and every existing conversation is untouched. -/
theorem record_assistant_response_unknown_id (store : Store) (max_history : Nat)
    (cid content : String) (h : get_conversation store cid = none) :
    record_assistant_response store max_history cid content = store := by
  unfold record_assistant_response
  rw [h]

/-- Witness for C10 at a concrete store and id. -/
theorem record_assistant_response_unknown_id_witness :
    get_conversation [("other", { id := "other", messages := [] })] "missing-id" = none ∧
    record_assistant_response [("other", { id := "other", messages := [] })] 50
        "missing-id" "answer text" =
      [("other", { id := "other", messages := [] })] :=
  ⟨by decide,
   record_assistant_response_unknown_id [("other", { id := "other", messages := [] })] 50
     "missing-id" "answer text" (by decide)⟩

/-! ## Claim C9 — fewer than 5 samples yields the empty anomaly list -/

/-- C9: on any sample list of length less than 5 both detectors return the
empty list (insufficient data is a defined empty result, not an error). -/
theorem detectors_empty_on_short_input (th : Thresholds) (ms : List Measurement)
    (source destination : String) (h : ms.length < 5) :
    detect_throughput_anomalies th ms source destination = [] ∧
    detect_latency_anomalies th ms source destination = [] := by
  unfold detect_throughput_anomalies detect_latency_anomalies
  rw [if_pos h, if_pos h]
  exact ⟨rfl, rfl⟩

/-- Witness for C9 on a concrete 4-element sample list. -/
theorem detectors_empty_on_short_input_witness :
    [⟨"throughput", "a", "b", 9, "Gbps"⟩, ⟨"throughput", "a", "b", 8, "Gbps"⟩,
        ⟨"throughput", "a", "b", 9, "Gbps"⟩,
        (⟨"throughput", "a", "b", 7, "Gbps"⟩ : Measurement)].length < 5 ∧
    (detect_throughput_anomalies DEFAULT_THRESHOLDS
        [⟨"throughput", "a", "b", 9, "Gbps"⟩, ⟨"throughput", "a", "b", 8, "Gbps"⟩,
          ⟨"throughput", "a", "b", 9, "Gbps"⟩, ⟨"throughput", "a", "b", 7, "Gbps"⟩] "" "" = [] ∧
      detect_latency_anomalies DEFAULT_THRESHOLDS
        [⟨"throughput", "a", "b", 9, "Gbps"⟩, ⟨"throughput", "a", "b", 8, "Gbps"⟩,
          ⟨"throughput", "a", "b", 9, "Gbps"⟩, ⟨"throughput", "a", "b", 7, "Gbps"⟩] "" "" = []) :=
  ⟨by decide,
   detectors_empty_on_short_input DEFAULT_THRESHOLDS
     [⟨"throughput", "a", "b", 9, "Gbps"⟩, ⟨"throughput", "a", "b", 8, "Gbps"⟩,
       ⟨"throughput", "a", "b", 9, "Gbps"⟩, ⟨"throughput", "a", "b", 7, "Gbps"⟩] "" ""
     (by decide)⟩

/-! ## Claim C2 — health-status precedence and the zero-throughput case -/

/-- A path whose only present metric is a throughput of exactly `0.0`. -/
def zero_throughput_path : NetworkPath :=
  { source := "a", destination := "b", throughput_gbps := some 0 }

/-- Counterexample to C2: the claim demands that a present throughput of
`0.0` (with latency and packet loss not triggering) yields `"warning"`, but
the code treats the falsy `0.0` like a missing value and returns
`"healthy"`. -/
theorem health_status_zero_throughput_counterexample :
    health_status zero_throughput_path = "healthy" ∧
    claim_health_status zero_throughput_path = "warning" ∧
    health_status zero_throughput_path ≠ claim_health_status zero_throughput_path := by
  refine ⟨by decide, by decide, by decide⟩

/-- C2 (amended): `health_status` follows the stated strict precedence, with
missing fields not triggering their rules, except that a present value of
`0.0` also does not trigger — which only matters for the `throughput < 1.0`
rule, since the other thresholds are positive. -/
theorem health_status_amended_precedence (p : NetworkPath) :
    health_status p = amended_health_status p := by
  have h1 : (p.packet_loss_pct.any fun v => decide (v ≠ 0 ∧ 1 < v)) =
      (p.packet_loss_pct.any fun v => decide (1 < v)) := by
    cases p.packet_loss_pct with
    | none => rfl
    | some v =>
      simp only [Option.any_some, decide_eq_decide]
      constructor
      · exact fun h => h.2
      · intro h
        refine ⟨?_, h⟩
        rintro rfl
        exact absurd h (by norm_num)
  have h2 : (p.packet_loss_pct.any fun v => decide (v ≠ 0 ∧ (0.5 : ℚ) < v)) =
      (p.packet_loss_pct.any fun v => decide ((0.5 : ℚ) < v)) := by
    cases p.packet_loss_pct with
    | none => rfl
    | some v =>
      simp only [Option.any_some, decide_eq_decide]
      constructor
      · exact fun h => h.2
      · intro h
        refine ⟨?_, h⟩
        rintro rfl
        exact absurd h (by norm_num)
  have h3 : (p.latency_ms.any fun v => decide (v ≠ 0 ∧ 100 < v)) =
      (p.latency_ms.any fun v => decide (100 < v)) := by
    cases p.latency_ms with
    | none => rfl
    | some v =>
      simp only [Option.any_some, decide_eq_decide]
      constructor
      · exact fun h => h.2
      · intro h
        refine ⟨?_, h⟩
        rintro rfl
        exact absurd h (by norm_num)
  unfold health_status amended_health_status
  rw [h1, h2, h3]
  cases hA : (p.packet_loss_pct.any fun v => decide (1 < v)) <;>
    cases hB : (p.packet_loss_pct.any fun v => decide ((0.5 : ℚ) < v)) <;>
      cases hC : (p.latency_ms.any fun v => decide (100 < v)) <;>
        cases hD : (p.throughput_gbps.any fun v => decide (v ≠ 0 ∧ v < 1)) <;>
          simp

/-! ## Claim C8 — `total_rtt` comes from the last hop, not the last responding hop -/

def c8_hop1 : TracerouteHop :=
  { hop_number := 1, ip_address := "10.0.0.1", rtt_ms := some 10 }

def c8_hop2 : TracerouteHop :=
  { hop_number := 2, ip_address := "10.0.0.2", is_responding := false }

/-- A trace whose only responding hop (cumulative RTT 10 ms) is followed by a
non-responding final hop. -/
def responding_then_silent_trace : TracerouteResult :=
  { source := "s", destination := "d", hops := [c8_hop1, c8_hop2] }

/-- Counterexample to C8: this trace has a responding hop, whose last
(indeed only) responding member has cumulative RTT 10 ms, yet `total_rtt_ms`
is `none` because the *final* hop does not respond. -/
theorem total_rtt_counterexample :
    (responding_then_silent_trace.hops.filter fun h => h.is_responding).getLast? =
      some c8_hop1 ∧
    c8_hop1.rtt_ms = some 10 ∧
    total_rtt_ms responding_then_silent_trace = none := by
  refine ⟨by decide, by decide, by decide⟩

/-- C8 (amended): `total_rtt_ms` is the `rtt_ms` of the *final* hop whenever that
value is present and nonzero, and `none` whenever the `rtt_ms` of the final hop is
absent or zero — even if earlier hops responded. -/
theorem total_rtt_last_hop (r : TracerouteResult) (h : TracerouteHop)
    (hlast : r.hops.getLast? = some h) :
    (∀ v, h.rtt_ms = some v → v ≠ 0 → total_rtt_ms r = some v) ∧
    (h.rtt_ms = none → total_rtt_ms r = none) ∧
    (h.rtt_ms = some 0 → total_rtt_ms r = none) := by
  unfold total_rtt_ms
  rw [hlast]
  dsimp only
  refine ⟨?_, ?_, ?_⟩
  · intro v hv hv0
    rw [hv]
    simp [hv0]
  · intro hv
    rw [hv]
  · intro hv
    rw [hv]
    simp

/-- Witness for the amended C8 theorem on the concrete trace above. -/
theorem total_rtt_last_hop_witness :
    responding_then_silent_trace.hops.getLast? = some c8_hop2 ∧
    total_rtt_ms responding_then_silent_trace = none :=
  ⟨by decide,
   (total_rtt_last_hop responding_then_silent_trace c8_hop2 (by decide)).2.1 (by decide)⟩

end NetAI

namespace NetAI

/-! ## Claim C5 — sliding-window trim on assistant commit -/

/-- C5: committing an assistant turn appends it after the existing messages
and then keeps exactly the `min (previous count + 1) max_history` most recent
messages; what remains is a suffix of the appended history (so nothing is
ever reordered), and when the appended count exceeds `max_history` exactly
`max_history` messages remain. -/
theorem record_assistant_response_window (store : Store) (max_history : Nat)
    (cid content : String) (conv : Conversation)
    (hfound : get_conversation store cid = some conv) :
    ∃ conv2,
      get_conversation (record_assistant_response store max_history cid content) cid =
        some conv2 ∧
      conv2.messages.length = min (conv.messages.length + 1) max_history ∧
      ∃ dropped,
        dropped ++ conv2.messages =
          conv.messages ++ [{ role := "assistant", content := content }] := by
  have hsome : (get_conversation store cid).isSome := by
    rw [hfound]
    rfl
  have happ : (add_message conv "assistant" content).messages =
      conv.messages ++ [{ role := "assistant", content := content }] := rfl
  unfold record_assistant_response
  rw [hfound]
  dsimp only
  by_cases hlen : max_history < (add_message conv "assistant" content).messages.length
  · rw [if_pos hlen]
    refine ⟨_, get_conversation_set store cid _ hsome, ?_, ?_⟩
    · rw [happ] at hlen ⊢
      simp only [List.length_drop, List.length_append, List.length_singleton] at hlen ⊢
      omega
    · exact ⟨_, List.take_append_drop _ _⟩
  · rw [if_neg hlen]
    refine ⟨_, get_conversation_set store cid _ hsome, ?_, ⟨[], by simp [happ]⟩⟩
    rw [happ] at hlen ⊢
    simp only [List.length_append, List.length_singleton] at hlen ⊢
    omega

/-- Witness for C5: a two-message conversation with `max_history = 2`; the
commit pushes the count to 3 and the two most recent messages remain. -/
theorem record_assistant_response_window_witness :
    get_conversation
        [("c", { id := "c",
                 messages := [{ role := "user", content := "hi" },
                              { role := "assistant", content := "prev" }] })] "c" =
      some { id := "c",
             messages := [{ role := "user", content := "hi" },
                          { role := "assistant", content := "prev" }] } ∧
    ∃ conv2,
      get_conversation
          (record_assistant_response
            [("c", { id := "c",
                     messages := [{ role := "user", content := "hi" },
                                  { role := "assistant", content := "prev" }] })] 2 "c" "ok")
          "c" = some conv2 ∧
      conv2.messages.length =
        min (([{ role := "user", content := "hi" },
              { role := "assistant", content := "prev" }] : List Message).length + 1) 2 ∧
      ∃ dropped,
        dropped ++ conv2.messages =
          [{ role := "user", content := "hi" }, { role := "assistant", content := "prev" }] ++
            [{ role := "assistant", content := "ok" }] :=
  ⟨by decide,
   record_assistant_response_window
     [("c", { id := "c",
              messages := [{ role := "user", content := "hi" },
                           { role := "assistant", content := "prev" }] })] 2 "c" "ok"
     { id := "c",
       messages := [{ role := "user", content := "hi" },
                    { role := "assistant", content := "prev" }] } (by decide)⟩

/-! ## Claim C7 — composing on a brand-new id -/

/-- C7: on a conversation id absent from the store, `build_llm_messages`
returns exactly one system message followed by one user message whose content
is the user text verbatim, and only afterwards commits the user turn to the
permanent history of the freshly created conversation — the stored history holds
exactly that one user turn, which was excluded from the window of this call. -/
theorem compose_fresh_conversation (store : Store) (fresh_id : String) (cws : Nat)
    (cid user_message : String) (tc : Option String)
    (hnew : get_conversation store cid = none) :
    (∃ sys_content,
        (build_llm_messages store fresh_id cws cid user_message tc).messages =
          [{ role := "system", content := sys_content },
           { role := "user", content := user_message }]) ∧
    get_conversation (build_llm_messages store fresh_id cws cid user_message tc).store
        fresh_id =
      some { id := cid, messages := [{ role := "user", content := user_message }] } := by
  unfold build_llm_messages
  rw [hnew]
  dsimp only
  rw [get_history_nil]
  constructor
  · exact build_messages_nil_history user_message (classify_query user_message) tc
  · rw [get_conversation_cons, if_pos rfl]
    rfl

/-- Witness for C7 at an empty store and concrete inputs. -/
theorem compose_fresh_conversation_witness :
    get_conversation [] "new-id" = none ∧
    ((∃ sys_content,
        (build_llm_messages [] "generated-uuid" 10 "new-id" "what is the status" none).messages =
          [{ role := "system", content := sys_content },
           { role := "user", content := "what is the status" }]) ∧
      get_conversation
          (build_llm_messages [] "generated-uuid" 10 "new-id" "what is the status" none).store
          "generated-uuid" =
        some { id := "new-id",
               messages := [{ role := "user", content := "what is the status" }] }) :=
  ⟨by decide,
   compose_fresh_conversation [] "generated-uuid" 10 "new-id" "what is the status" none
     (by decide)⟩

/-! ## Claim C1 — the caller-supplied id is never re-keyed in the store -/

/-- The store after a first compose call on the absent caller-supplied id
`"remembered-id"` (the generated uuid is modelled as `"generated-uuid-1"`). -/
def c1_first_call : ComposeResult :=
  build_llm_messages [] "generated-uuid-1" 10 "remembered-id" "hello there" none

/-- C1 fails on the code: after the first compose call on the absent id
`"remembered-id"`, the fresh conversation sits in the dict under the
*generated* key with its `id` attribute overwritten, so a lookup under the
caller-supplied id finds nothing and a second compose call on the same id
starts from an empty window — its message list has no trace of the first
committed user message of the first call, contradicting the claimed re-keying. -/
theorem compose_rekey_failure :
    get_conversation c1_first_call.store "remembered-id" = none ∧
    get_conversation c1_first_call.store "generated-uuid-1" =
      some { id := "remembered-id",
             messages := [{ role := "user", content := "hello there" }] } ∧
    (build_llm_messages c1_first_call.store "generated-uuid-2" 10 "remembered-id"
          "second question" none).messages =
      [{ role := "system", content := NETWORK_DIAGNOSTICS_SYSTEM_PROMPT },
       { role := "user", content := "second question" }] := by
  refine ⟨by decide, by decide, by decide⟩

end NetAI

namespace NetAI

/-! ## Claim C6 — classifier is a total first-match rule list -/

/-- Character-wise mapping preserves initial segments. -/
theorem is_pre_map (f : Char → Char) :
    ∀ kw l : List Char, is_pre kw l = true → is_pre (kw.map f) (l.map f) = true
  | [], _, _ => rfl
  | _ :: _, [], h => by simp [is_pre] at h
  | a :: as, b :: bs, h => by
    simp only [is_pre, Bool.and_eq_true, decide_eq_true_eq] at h
    simp only [List.map_cons, is_pre, Bool.and_eq_true, decide_eq_true_eq]
    exact ⟨by rw [h.1], is_pre_map f as bs h.2⟩

/-- Character-wise mapping preserves substring containment; in particular a
keyword contained in the raw text is contained in the lower-cased text. -/
theorem contains_sub_map (f : Char → Char) :
    ∀ l kw : List Char, contains_sub l kw = true → contains_sub (l.map f) (kw.map f) = true
  | [], kw, h => by
    cases kw with
    | nil => rfl
    | cons c cs => simp [contains_sub] at h
  | c :: t, kw, h => by
    simp only [contains_sub, Bool.or_eq_true] at h
    simp only [List.map_cons, contains_sub, Bool.or_eq_true]
    cases h with
    | inl hp =>
      exact Or.inl (by simpa using is_pre_map f kw (c :: t) hp)
    | inr hc => exact Or.inr (contains_sub_map f t kw hc)

/-- C6: `classify_query` is the total deterministic first-match evaluation of
the fixed ordered rule list (anomaly → remediation → telemetry → general
default), and any text containing both `"fix"` and `"anomaly"` classifies as
`anomaly_explanation` (the anomaly rule is checked first). -/
theorem classify_query_first_match (t : String) :
    classify_query t = classify_spec t ∧
    (contains_sub t.data "fix".data = true →
      contains_sub t.data "anomaly".data = true →
      classify_query t = "anomaly_explanation") := by
  constructor
  · unfold classify_query classify_spec classifier_rules
    by_cases h1 :
        (["anomaly", "unusual", "strange", "weird", "spike"].any
          (contains_kw (lower_chars t))) = true
    · simp [List.find?, h1]
    · by_cases h2 :
          (["fix", "remediat", "resolve", "repair", "action"].any
            (contains_kw (lower_chars t))) = true
      · simp [List.find?, h1, h2]
      · by_cases h3 :
            (["telemetry", "metric", "measurement", "perfsonar", "data"].any
              (contains_kw (lower_chars t))) = true
        · simp [List.find?, h1, h2, h3]
        · simp [List.find?, h1, h2, h3]
  · intro _hfix hanom
    have hlow : contains_kw (lower_chars t) "anomaly" = true := by
      have hmap := contains_sub_map Char.toLower t.data "anomaly".data hanom
      have heq : ("anomaly".data.map Char.toLower) = "anomaly".data := by decide
      rw [heq] at hmap
      exact hmap
    have hany :
        (["anomaly", "unusual", "strange", "weird", "spike"].any
          (contains_kw (lower_chars t))) = true := by
      simp only [List.any_cons, Bool.or_eq_true]
      exact Or.inl hlow
    unfold classify_query
    rw [if_pos hany]

/-- Witness for C6 on a concrete text containing both keywords. -/
theorem classify_query_first_match_witness :
    contains_sub "please fix this anomaly".data "fix".data = true ∧
    contains_sub "please fix this anomaly".data "anomaly".data = true ∧
    classify_query "please fix this anomaly" = "anomaly_explanation" :=
  ⟨by decide, by decide,
   (classify_query_first_match "please fix this anomaly").2 (by decide) (by decide)⟩

end NetAI

namespace NetAI

/-! ## Claim C4 — `detect_all` output is sorted by severity rank, stably -/

/-- Inserting into the severity order walks past strictly smaller ranks only,
so the filter at any fixed rank `k` sees the inserted element first exactly
when it has rank `k`, and is otherwise untouched. -/
theorem sev_filter_orderedInsert (k : Nat) (a : Anomaly) (l : List Anomaly) :
    (List.orderedInsert sev_le a l).filter
        (fun x => decide (severity_order x.severity = k)) =
      (if severity_order a.severity = k then [a] else []) ++
        l.filter (fun x => decide (severity_order x.severity = k)) := by
  induction l with
  | nil =>
    by_cases ha : severity_order a.severity = k <;>
      simp [List.orderedInsert, List.filter, ha]
  | cons b t ih =>
    rw [List.orderedInsert]
    by_cases hr : sev_le a b
    · rw [if_pos hr]
      by_cases ha : severity_order a.severity = k <;>
        simp [List.filter_cons, ha]
    · rw [if_neg hr]
      have hb : severity_order b.severity < severity_order a.severity := by
        unfold sev_le at hr
        omega
      by_cases ha : severity_order a.severity = k
      · have hbk : ¬severity_order b.severity = k := by omega
        simp [List.filter_cons, hbk, ih, ha]
      · simp [List.filter_cons, ih, ha]

/-- Insertion sort with the severity order leaves each fixed-rank fibre of the
list untouched: the stability property of the stable sort it models. -/
theorem sev_filter_insertionSort (k : Nat) (l : List Anomaly) :
    (List.insertionSort sev_le l).filter
        (fun x => decide (severity_order x.severity = k)) =
      l.filter (fun x => decide (severity_order x.severity = k)) := by
  induction l with
  | nil => rfl
  | cons a t ih =>
    rw [List.insertionSort, sev_filter_orderedInsert, ih, List.filter_cons]
    by_cases ha : severity_order a.severity = k <;> simp [ha]

/-- C4: for every pair of sample lists, `detect_all` returns a list sorted by
severity rank (critical=0 … low=3), and the sort is stable: for each severity
the sub-list at that severity equals the corresponding sub-list of the
concatenation "throughput-detector output then latency-detector output". -/
theorem detect_all_sorted_stable (th : Thresholds) (td ld : List Measurement)
    (source destination : String) :
    List.Sorted sev_le (detect_all th td ld source destination) ∧
    ∀ sev : AnomalySeverity,
      (detect_all th td ld source destination).filter
          (fun a => decide (a.severity = sev)) =
        (detect_throughput_anomalies th td source destination ++
            detect_latency_anomalies th ld source destination).filter
          (fun a => decide (a.severity = sev)) := by
  constructor
  · exact List.sorted_insertionSort sev_le _
  · intro sev
    have hpt : (fun a : Anomaly => decide (a.severity = sev)) =
        fun a : Anomaly => decide (severity_order a.severity = severity_order sev) := by
      funext a
      have hiff : ∀ s1 s2 : AnomalySeverity,
          (decide (s1 = s2)) = decide (severity_order s1 = severity_order s2) := by
        intro s1 s2
        cases s1 <;> cases s2 <;> rfl
      exact hiff a.severity sev
    unfold detect_all
    rw [hpt, sev_filter_insertionSort]

end NetAI

namespace NetAI

/-! ## Claim C3 — the problematic-hop set -/

/-- Unfolding of the problematic-hop loop body on a non-empty hop list. -/
theorem problematic_hops_aux_unfold (prev : Option TracerouteHop) (hop : TracerouteHop)
    (rest : List TracerouteHop) :
    problematic_hops_aux prev (hop :: rest) =
      (let tail := problematic_hops_aux (some hop) rest
       if hop.is_responding = false then hop :: tail
       else
         match prev with
         | none => tail
         | some p =>
           match hop.rtt_ms, p.rtt_ms with
           | some a, some b =>
             if a ≠ 0 ∧ b ≠ 0 ∧ 20 < a - b then hop :: tail else tail
           | _, _ => tail) := rfl

/-- The head hop is emitted when it is non-responding, or responding with a
supplied predecessor giving a bad delta. -/
theorem problematic_hops_aux_cons_of_head (prev : Option TracerouteHop)
    (hop : TracerouteHop) (rest : List TracerouteHop)
    (hcond : hop.is_responding = false ∨
      (hop.is_responding = true ∧ ∃ p, prev = some p ∧ delta_bad p hop)) :
    problematic_hops_aux prev (hop :: rest) =
      hop :: problematic_hops_aux (some hop) rest := by
  rw [problematic_hops_aux_unfold]
  rcases hcond with hnr | ⟨hr, p, rfl, a, b, hra, hrb, hca, hcb, hcd⟩
  · rw [hnr]
    simp
  · rw [hr]
    dsimp only
    rw [if_neg (by simp)]
    rw [hra, hrb]
    dsimp only
    rw [if_pos ⟨hca, hcb, hcd⟩]

/-- The head hop is skipped when it neither fails to respond nor exceeds the
delta bound against a supplied truthy-RTT predecessor. -/
theorem problematic_hops_aux_cons_of_not_head (prev : Option TracerouteHop)
    (hop : TracerouteHop) (rest : List TracerouteHop)
    (hcond : ¬(hop.is_responding = false ∨
      (hop.is_responding = true ∧ ∃ p, prev = some p ∧ delta_bad p hop))) :
    problematic_hops_aux prev (hop :: rest) = problematic_hops_aux (some hop) rest := by
  have h1 : ¬hop.is_responding = false := fun hc => hcond (Or.inl hc)
  have hr : hop.is_responding = true := by
    cases hval : hop.is_responding
    · exact absurd hval h1
    · rfl
  rw [problematic_hops_aux_unfold, hr]
  dsimp only
  rw [if_neg (by simp)]
  cases prev with
  | none => rfl
  | some p0 =>
    dsimp only
    cases hra : hop.rtt_ms with
    | none => rfl
    | some a =>
      cases hrb : p0.rtt_ms with
      | none => rfl
      | some b =>
        dsimp only
        rw [if_neg]
        rintro ⟨hca, hcb, hcd⟩
        exact hcond (Or.inr ⟨hr, p0, rfl, a, b, hra, hrb, hca, hcb, hcd⟩)

/-- Membership in the problematic-hop loop output, with an explicit running
predecessor: a hop is emitted iff it is a non-responding member, or the very
first element with the supplied predecessor and a bad delta, or some member
whose immediate in-list predecessor gives a bad delta. -/
theorem mem_problematic_hops_aux (l : List TracerouteHop) :
    ∀ (prev : Option TracerouteHop) (h : TracerouteHop),
      h ∈ problematic_hops_aux prev l ↔
        (h ∈ l ∧ h.is_responding = false) ∨
        (h.is_responding = true ∧ ∃ p,
          ((prev = some p ∧ ∃ t, l = h :: t) ∨ ∃ l1 l2, l = l1 ++ p :: h :: l2) ∧
          delta_bad p h) := by
  induction l with
  | nil =>
    intro prev h
    constructor
    · intro hmem
      exact absurd hmem (List.not_mem_nil h)
    · rintro (⟨hm, _⟩ | ⟨_, p, hc, _⟩)
      · exact absurd hm (List.not_mem_nil h)
      · rcases hc with ⟨_, t, ht⟩ | ⟨l1, l2, he⟩
        · exact List.noConfusion ht
        · exact absurd he (by simp)
  | cons hop rest ih =>
    intro prev h
    by_cases hp : hop.is_responding = false ∨
        (hop.is_responding = true ∧ ∃ p, prev = some p ∧ delta_bad p hop)
    · rw [problematic_hops_aux_cons_of_head prev hop rest hp, List.mem_cons, ih]
      constructor
      · rintro (rfl | (⟨hm, hnr⟩ | ⟨hr, p, hc, hd⟩))
        · rcases hp with hnr | ⟨hr, p, hprev, hd⟩
          · exact Or.inl ⟨List.mem_cons_self _ _, hnr⟩
          · exact Or.inr ⟨hr, p, Or.inl ⟨hprev, rest, rfl⟩, hd⟩
        · exact Or.inl ⟨List.mem_cons_of_mem _ hm, hnr⟩
        · refine Or.inr ⟨hr, p, ?_, hd⟩
          rcases hc with ⟨hsome, t, rfl⟩ | ⟨l1, l2, rfl⟩
          · obtain rfl := Option.some.inj hsome
            exact Or.inr ⟨[], t, rfl⟩
          · exact Or.inr ⟨hop :: l1, l2, rfl⟩
      · rintro (⟨hm, hnr⟩ | ⟨hr, p, hc, hd⟩)
        · rcases List.mem_cons.mp hm with rfl | hm'
          · exact Or.inl rfl
          · exact Or.inr (Or.inl ⟨hm', hnr⟩)
        · rcases hc with ⟨hprev, t, ht⟩ | ⟨l1, l2, he⟩
          · injection ht with h1 _
            exact Or.inl h1.symm
          · cases l1 with
            | nil =>
              injection he with h1 h2
              subst h1
              exact Or.inr (Or.inr ⟨hr, hop, Or.inl ⟨rfl, l2, h2⟩, hd⟩)
            | cons y l1' =>
              injection he with h1 h2
              exact Or.inr (Or.inr ⟨hr, p, Or.inr ⟨l1', l2, h2⟩, hd⟩)
    · rw [problematic_hops_aux_cons_of_not_head prev hop rest hp, ih]
      constructor
      · rintro (⟨hm, hnr⟩ | ⟨hr, p, hc, hd⟩)
        · exact Or.inl ⟨List.mem_cons_of_mem _ hm, hnr⟩
        · refine Or.inr ⟨hr, p, ?_, hd⟩
          rcases hc with ⟨hsome, t, rfl⟩ | ⟨l1, l2, rfl⟩
          · obtain rfl := Option.some.inj hsome
            exact Or.inr ⟨[], t, rfl⟩
          · exact Or.inr ⟨hop :: l1, l2, rfl⟩
      · rintro (⟨hm, hnr⟩ | ⟨hr, p, hc, hd⟩)
        · rcases List.mem_cons.mp hm with rfl | hm'
          · exact absurd (Or.inl hnr) hp
          · exact Or.inl ⟨hm', hnr⟩
        · rcases hc with ⟨hprev, t, ht⟩ | ⟨l1, l2, he⟩
          · injection ht with h1 _
            subst h1
            exact absurd (Or.inr ⟨hr, p, hprev, hd⟩) hp
          · cases l1 with
            | nil =>
              injection he with h1 h2
              subst h1
              exact Or.inr ⟨hr, hop, Or.inl ⟨rfl, l2, h2⟩, hd⟩
            | cons y l1' =>
              injection he with h1 h2
              exact Or.inr ⟨hr, p, Or.inr ⟨l1', l2, h2⟩, hd⟩

/-- C3 (amended): the set of problematic hops is exactly the union of the
non-responding hops and the responding hops whose own RTT and immediate
predecessor RTT are both present and nonzero with a delta exceeding 20 ms
(`delta_bad`); the first hop has no predecessor decomposition, so it can only
appear by non-response. -/
theorem problematic_hops_characterization (r : TracerouteResult) (h : TracerouteHop) :
    h ∈ problematic_hops r ↔
      (h ∈ r.hops ∧ h.is_responding = false) ∨
      (h.is_responding = true ∧
        ∃ l1 p l2, r.hops = l1 ++ p :: h :: l2 ∧ delta_bad p h) := by
  unfold problematic_hops
  rw [mem_problematic_hops_aux]
  constructor
  · rintro (hl | ⟨hr, p, hc, hd⟩)
    · exact Or.inl hl
    · rcases hc with ⟨hnone, _⟩ | ⟨l1, l2, he⟩
      · exact Option.noConfusion hnone
      · exact Or.inr ⟨hr, l1, p, l2, he, hd⟩
  · rintro (hl | ⟨hr, l1, p, l2, he, hd⟩)
    · exact Or.inl hl
    · exact Or.inr ⟨hr, p, Or.inr ⟨l1, l2, he⟩, hd⟩

def zero_rtt_hop : TracerouteHop :=
  { hop_number := 1, ip_address := "10.0.0.1", rtt_ms := some 0 }

def jump_hop : TracerouteHop :=
  { hop_number := 2, ip_address := "10.0.0.2", rtt_ms := some 25 }

/-- A trace whose first hop responds with RTT `0.0` and whose second hop
responds with RTT `25.0` — a 25 ms delta from the immediately preceding
hop. -/
def zero_rtt_trace : TracerouteResult :=
  { source := "s", destination := "d", hops := [zero_rtt_hop, jump_hop] }

/-- Counterexample to C3 as stated: hop 2 responds and its RTT delta from the
immediately preceding hop is `25 - 0 = 25 > 20` ms, so the claimed union
contains it; but the truthiness guard in the code skips the falsy `0.0`
predecessor RTT and reports no problematic hops at all. -/
theorem problematic_hops_counterexample :
    zero_rtt_trace.hops = [zero_rtt_hop, jump_hop] ∧
    jump_hop.is_responding = true ∧
    jump_hop.rtt_ms = some 25 ∧
    zero_rtt_hop.rtt_ms = some 0 ∧
    (25 : ℚ) - 0 > 20 ∧
    problematic_hops zero_rtt_trace = [] := by
  refine ⟨by decide, by decide, by decide, by decide, by norm_num, by decide⟩

end NetAI
